import Mathlib

/-!
Verification development for an OpenWeather MCP gateway.

The repository contains two near-duplicate gateway implementations
(a synchronous one and an async HTTP one) with the same helper logic:
a memoizing city geocoder, response formatters, and tool functions
(get_weather, get_forecast_5d, get_air_pollution).

We shallowly embed the Python code:
  * JSON payloads become the inductive type `Json`; JSON numbers are kept
    as decimal fixed-point pairs (mantissa, exponent) so that the string
    renderings used by the formatters are exact.
  * Python code that may raise becomes `Except PyExc _`.
  * The external HTTP provider becomes an oracle function in a `World`
    record; the module-level `_geocode_cache` and the sequence of provider
    calls become an explicit `GwState` threaded through the functions.
  * Local-time rendering (`datetime.fromtimestamp(...).strftime(...)`)
    depends on the host timezone, so it is a `TimeFn` parameter of the
    world rather than a fixed function.
-/

set_option autoImplicit false

/-- A JSON value as produced by `r.json()` in the Python code.  Numbers are
decimal fixed-point: `num m e` denotes the value `m / 10^e` (`e = 0` is a
Python `int`, `e > 0` a `float` written with `e` decimal digits). -/
inductive Json where
  | null
  | bool (b : Bool)
  | num (m : Int) (e : Nat)
  | str (s : String)
  | arr (xs : List Json)
  | obj (kvs : List (String × Json))

/-- Python exception kinds that the embedded code can raise. -/
inductive PyExc where
  | keyError
  | indexError
  | typeError
  | attributeError
  | transportError
  deriving DecidableEq, Repr

/-- A single quote character, used by Python error messages and `repr`. -/
def squote : String := "\x27"

/-- The characters stripped by `.strip(", ")`. -/
def sepChar (c : Char) : Bool := c = ',' || c = ' '

/-- Python `s.strip(", ")`: remove leading and trailing commas/spaces. -/
def stripSep (s : String) : String :=
  String.mk (((s.toList.dropWhile sepChar).reverse.dropWhile sepChar).reverse)

/-- Digits of `m / 10^e` split around the decimal point: the natural-number
digit string of `|m|`, left-padded with zeros to at least `e + 1` digits. -/
def decDigits (m : Int) (e : Nat) : List Char :=
  let ds := (toString m.natAbs).toList
  List.replicate (e + 1 - ds.length) '0' ++ ds

/-- Render `m / 10^e` with exactly `e` digits after the decimal point,
mirroring Python float formatting for decimal values (`e > 0`). -/
def decSplit (m : Int) (e : Nat) : String :=
  let ds := decDigits m e
  (if m < 0 then "-" else "") ++
    String.mk (ds.take (ds.length - e)) ++ "." ++ String.mk (ds.drop (ds.length - e))

/-- Python `str()` of the number `m / 10^e`: an `int` prints without a point,
a `float` prints its decimal digits. -/
def numStr (m : Int) (e : Nat) : String :=
  if e = 0 then toString m else decSplit m e

/-- Round `num / den` (with `den > 0`) to the nearest integer, ties to even:
the rounding used by Python float formatting. -/
def roundHalfEven (num : Int) (den : Int) : Int :=
  let q := Int.fdiv num den
  let r := Int.fmod num den
  if 2 * r < den then q
  else if 2 * r > den then q + 1
  else if q % 2 = 0 then q else q + 1

/-- Python `format(x, ".2f")` for the number `m / 10^e`. -/
def fmt2f (m : Int) (e : Nat) : String :=
  if e ≤ 2 then decSplit (m * (10 : Int) ^ (2 - e)) 2
  else decSplit (roundHalfEven m ((10 : Int) ^ (e - 2))) 2

mutual
/-- Python `repr()` of a JSON value (string escaping simplified to plain
single-quote wrapping; the formatters only hit this on non-string leaves). -/
def pyRepr : Json → String
  | .null => "None"
  | .bool b => if b then "True" else "False"
  | .num m e => numStr m e
  | .str s => squote ++ s ++ squote
  | .arr xs => "[" ++ pyReprList xs ++ "]"
  | .obj kvs => "\x7b" ++ pyReprKVs kvs ++ "\x7d"

/-- Comma-joined `repr`s of a list of values. -/
def pyReprList : List Json → String
  | [] => ""
  | [x] => pyRepr x
  | x :: y :: xs => pyRepr x ++ ", " ++ pyReprList (y :: xs)

/-- Comma-joined `repr`s of the key/value pairs of a dict. -/
def pyReprKVs : List (String × Json) → String
  | [] => ""
  | [(k, v)] => squote ++ k ++ squote ++ ": " ++ pyRepr v
  | (k, v) :: y :: xs => squote ++ k ++ squote ++ ": " ++ pyRepr v ++ ", " ++ pyReprKVs (y :: xs)
end

/-- Python `str()` of a JSON value, as used inside f-strings. -/
def pyStr : Json → String
  | .str s => s
  | v => pyRepr v

/-- Python `str()` of a possibly-`None` value (`j.get(k)` result). -/
def pyStrOpt : Option Json → String
  | none => "None"
  | some v => pyStr v

/-- Python truthiness of a JSON value. -/
def truthy : Json → Bool
  | .null => false
  | .bool b => b
  | .num m _ => m ≠ 0
  | .str s => s ≠ ""
  | .arr xs => !xs.isEmpty
  | .obj kvs => !kvs.isEmpty

/-- Look up a key in the pair list backing a JSON object. -/
def jlookup (k : String) : List (String × Json) → Option Json
  | [] => none
  | (k₂, v) :: kvs => if k = k₂ then some v else jlookup k kvs

/-- Python `d.get(key)`: `None` when absent; raises `AttributeError` when the
receiver is not a dict. -/
def dictGet (j : Json) (k : String) : Except PyExc (Option Json) :=
  match j with
  | .obj kvs => .ok (jlookup k kvs)
  | _ => .error .attributeError

/-- Python `d[key]` for a string key: `KeyError` when absent on a dict,
`TypeError` on every non-dict receiver that JSON can produce. -/
def getItem (j : Json) (k : String) : Except PyExc Json :=
  match j with
  | .obj kvs =>
    match jlookup k kvs with
    | some v => .ok v
    | none => .error .keyError
  | _ => .error .typeError

/-- Python `x[0]` on a JSON value: head of a list (`IndexError` when empty),
first character of a string, `KeyError` on a dict (JSON dict keys are
strings, never `0`), `TypeError` otherwise. -/
def pyIndex0 (j : Json) : Except PyExc Json :=
  match j with
  | .arr [] => .error .indexError
  | .arr (x :: _) => .ok x
  | .str s =>
    match s.toList with
    | [] => .error .indexError
    | c :: _ => .ok (.str (String.mk [c]))
  | .obj _ => .error .keyError
  | _ => .error .typeError

/-- Python `key in container` for a string key: key membership for a dict,
element membership for a list, substring test for a string, `TypeError`
otherwise. -/
def pyContains (j : Json) (k : String) : Except PyExc Bool :=
  match j with
  | .obj kvs => .ok (jlookup k kvs).isSome
  | .arr xs => .ok (xs.any fun x => match x with | .str s => s = k | _ => false)
  | .str s => .ok (decide ((s.splitOn k).length > 1))
  | _ => .error .typeError

/-- Python `f"..:.2f"` applied to a JSON value: numbers format, booleans
count as the ints 1 and 0, everything else raises. -/
def fmt2fVal : Json → Except PyExc String
  | .num m e => .ok (fmt2f m e)
  | .bool b => .ok (if b then "1.00" else "0.00")
  | _ => .error .typeError

/-- Python `xs[:limit]` on a list, with Python slice semantics for a
negative bound. -/
def pySliceTo (xs : List Json) (limit : Int) : List Json :=
  if 0 ≤ limit then xs.take limit.toNat
  else xs.take ((xs.length : Int) + limit).toNat

/-! ## Response formatters (src/mcp_server.py and src/http/mcp_server.py) -/

/-- Renders a Unix timestamp (a JSON number `m / 10^e`) as the host-local
`"%Y-%m-%d %H:%M"` string.  `datetime.fromtimestamp` depends on the host
timezone, so the embedding keeps it abstract. -/
def TimeFn : Type := Int → Nat → String

/-- Python `datetime.fromtimestamp(x).strftime(..)`: requires a number. -/
def renderTime (ft : TimeFn) : Json → Except PyExc String
  | .num m e => .ok (ft m e)
  | _ => .error .typeError

/-- `format_weather_short` from the source: builds
`f"\x7bplace\x7d: \x7btemp\x7d°C, \x7bdesc\x7d"` where `place` is the
stripped `f"\x7bname\x7d, \x7bcountry\x7d"`.  No try/except in the source,
so failures surface as `Except.error`. -/
def format_weather_short (j : Json) : Except PyExc String := do
  let nameOpt ← dictGet j "name"
  let name : Json :=
    match nameOpt with
    | some v => if truthy v then v else .str ""
    | none => .str ""
  let sys := (← dictGet j "sys").getD (Json.obj [])
  let country := (← dictGet sys "country").getD (Json.str "")
  let place := stripSep (pyStr name ++ ", " ++ pyStr country)
  let main := (← dictGet j "main").getD (Json.obj [])
  let temp ← dictGet main "temp"
  let weather := (← dictGet j "weather").getD (Json.arr [Json.obj []])
  let w0 ← pyIndex0 weather
  let desc := (← dictGet w0 "description").getD (Json.str "")
  return place ++ ": " ++ pyStrOpt temp ++ "°C, " ++ pyStr desc

/-- One line of the loop body of `format_forecast5_short`:
`f"\x7bdt\x7d: \x7btemp\x7d°C, \x7bdesc\x7d"`.  Every subscript uses `[...]`
in the source, so a missing key or wrong type raises. -/
def forecastEntryLine (ft : TimeFn) (entry : Json) : Except PyExc String := do
  let dt ← renderTime ft (← getItem entry "dt")
  let temp ← getItem (← getItem entry "main") "temp"
  let desc ← getItem (← pyIndex0 (← getItem entry "weather")) "description"
  return dt ++ ": " ++ pyStr temp ++ "°C, " ++ pyStr desc

/-- Python `j.get("list", [])` followed by slicing: a non-list value under
`"list"` makes the slice raise. -/
def listField (j : Json) : Except PyExc (List Json) := do
  match (← dictGet j "list").getD (Json.arr []) with
  | .arr xs => return xs
  | _ => throw .typeError

/-- The `for entry in ...:` loop of the line-building formatters: format
the entries in order, stopping at (and propagating) the first raise. -/
def formatLines (f : Json → Except PyExc String) : List Json → Except PyExc (List String)
  | [] => .ok []
  | x :: xs => do
    let s ← f x
    let rest ← formatLines f xs
    return s :: rest

/-- `format_forecast5_short` from the source: a header line naming the city
and slot count, then one line per entry of `j["list"][:limit]`.  No
try/except in the source. -/
def format_forecast5_short (ft : TimeFn) (j : Json) (limit : Int) :
    Except PyExc String := do
  let city := (← dictGet ((← dictGet j "city").getD (Json.obj []))
      "name").getD (Json.str "Unknown")
  let header := "5-day / 3-hour forecast for " ++ pyStr city ++
    " (first " ++ toString limit ++ " slots):"
  let entries ← listField j
  let lines ← formatLines (forecastEntryLine ft) (pySliceTo entries limit)
  return String.intercalate "\n" (header :: lines)

/-- ASCII uppercase of one character, as Python `.upper()` maps it. -/
def pyUpperChar (c : Char) : Char :=
  if 'a' ≤ c ∧ c ≤ 'z' then Char.ofNat (c.toNat - 32) else c

/-- Python `s.upper()` on the ASCII pollutant labels. -/
def pyUpper (s : String) : String := String.mk (s.data.map pyUpperChar)

/-- The fixed pollutant order used by both air-pollution formatters. -/
def pollutantOrder : List String := ["pm2_5", "pm10", "no2", "o3", "so2", "co", "nh3"]

/-- The pollutant loop shared by both air-pollution formatters: for each
pollutant in the fixed order, when present in `comps`, append
`"<LABEL>=<value :.2f>"`. -/
def componentParts (comps : Json) : Except PyExc (List String) :=
  pollutantOrder.foldlM
    (fun parts comp => do
      if ← pyContains comps comp then
        let v ← fmt2fVal (← getItem comps comp)
        return parts ++ [pyUpper comp ++ "=" ++ v]
      else
        return parts)
    []

/-- The body of the `try:` block of `format_air_pollution_current`. -/
def airPollutionCurrentBody (j : Json) : Except PyExc String := do
  let item ← pyIndex0 ((← dictGet j "list").getD (Json.arr []))
  let aqi ← getItem (← getItem item "main") "aqi"
  let parts ← componentParts (← getItem item "components")
  return "AQI: " ++ pyStr aqi ++ ". Components: " ++ String.intercalate ", " parts

/-- `format_air_pollution_current` from the source: the only formatter with
a try/except — any failure becomes the fixed diagnostic string. -/
def format_air_pollution_current (j : Json) : String :=
  match airPollutionCurrentBody j with
  | .ok s => s
  | .error _ => "Unable to parse air pollution data"

/-- One line of the loop body of `format_air_pollution_forecast`:
`f"\x7bdt\x7d — AQI \x7baqi\x7d: " + ", ".join(parts)`. -/
def airForecastEntryLine (ft : TimeFn) (entry : Json) : Except PyExc String := do
  let dt ← renderTime ft (← getItem entry "dt")
  let aqi ← getItem (← getItem entry "main") "aqi"
  let parts ← componentParts (← getItem entry "components")
  return dt ++ " — AQI " ++ pyStr aqi ++ ": " ++ String.intercalate ", " parts

/-- `format_air_pollution_forecast` from the source: a fixed header, then
one line per entry of `j["list"][:limit]`.  No try/except in the source. -/
def format_air_pollution_forecast (ft : TimeFn) (j : Json) (limit : Int) :
    Except PyExc String := do
  let entries ← listField j
  let lines ← formatLines (airForecastEntryLine ft) (pySliceTo entries limit)
  return String.intercalate "\n" ("Air pollution forecast:" :: lines)

/-! ## Provider oracle, cache state, and tools -/

/-- Outcome of the provider geocoding request (`requests.get` /
`httpx.get` + `raise_for_status()` + `r.json()`): either a decoded JSON
array, or a transport-level failure (network error, non-2xx status, or a
malformed body), which raises. -/
inductive GeoOutcome where
  | ok (data : List Json)
  | transportError

/-- Outcome of a domain-data request: a network error raises; otherwise a
response carries a status code, its text, and its decoded JSON body
(`none` when `r.json()` would raise on a malformed body). -/
inductive WxOutcome where
  | netError
  | resp (status : Nat) (text : String) (body : Option Json)

/-- The four domain-data endpoints of the gateway. -/
inductive Endpoint where
  | weather
  | forecast5
  | airCurrent
  | airForecast
  deriving DecidableEq, Repr

/-- The external environment of one gateway process: the geocoding
provider, the domain-data provider, and the host-local time renderer. -/
structure World where
  geo : String → GeoOutcome
  fetch : Endpoint → Json × Json → WxOutcome
  time : TimeFn

/-- The mutable state of the gateway process: the module-level
`_geocode_cache` plus instrumentation logs recording, in order, the
cities sent to the geocoding endpoint and the domain-data requests
issued. -/
structure GwState where
  cache : List (String × (Json × Json))
  geoCalls : List String
  fetchCalls : List (Endpoint × (Json × Json))

/-- The empty state at process start. -/
def GwState.init : GwState := ⟨[], [], []⟩

/-- Result of `geocode_city`: a coordinate pair, `None` (no match), or a
propagating exception. -/
inductive GeoResult where
  | found (c : Json × Json)
  | notFound
  | exc (e : PyExc)

/-- Look up a city in the cache (`city in _geocode_cache`). -/
def cacheLookup (city : String) : List (String × (Json × Json)) → Option (Json × Json)
  | [] => none
  | (k, v) :: rest => if k = city then some v else cacheLookup city rest

/-- `geocode_city` from the source: answer from `_geocode_cache` when
present; otherwise issue one provider geocoding call.  Zero matches give
`None` and cache nothing; a transport failure raises and caches nothing;
otherwise `data[0]["lat"], data[0]["lon"]` are extracted (raising — and
caching nothing — when absent) and the pair is cached and returned. -/
def geocode_city (geo : String → GeoOutcome) (st : GwState) (city : String) :
    GeoResult × GwState :=
  match cacheLookup city st.cache with
  | some c => (.found c, st)
  | none =>
    let st := { st with geoCalls := st.geoCalls ++ [city] }
    match geo city with
    | .transportError => (.exc .transportError, st)
    | .ok [] => (.notFound, st)
    | .ok (first :: _) =>
      match getItem first "lat", getItem first "lon" with
      | .ok lat, .ok lon =>
        (.found (lat, lon), { st with cache := st.cache ++ [(city, (lat, lon))] })
      | .error e, _ => (.exc e, st)
      | .ok _, .error e => (.exc e, st)

/-- `get_weather` from the source: resolve, fetch current weather, format.
Unresolved cities and non-200 responses become normal strings; exceptions
(from geocoding transport failures, network errors, malformed bodies, or
the formatter) propagate. -/
def get_weather (w : World) (st : GwState) (city : String) :
    Except PyExc String × GwState :=
  match geocode_city w.geo st city with
  | (.exc e, st) => (.error e, st)
  | (.notFound, st) =>
    (.ok ("Could not resolve city " ++ squote ++ city ++ squote), st)
  | (.found c, st) =>
    let st := { st with fetchCalls := st.fetchCalls ++ [(.weather, c)] }
    match w.fetch .weather c with
    | .netError => (.error .transportError, st)
    | .resp status text body =>
      if status ≠ 200 then (.ok ("Weather API failed: " ++ text), st)
      else
        match body with
        | none => (.error .transportError, st)
        | some j => (format_weather_short j, st)

/-- `get_forecast_5d` from the source. -/
def get_forecast_5d (w : World) (st : GwState) (city : String) (slots : Int) :
    Except PyExc String × GwState :=
  match geocode_city w.geo st city with
  | (.exc e, st) => (.error e, st)
  | (.notFound, st) =>
    (.ok ("Could not resolve city " ++ squote ++ city ++ squote), st)
  | (.found c, st) =>
    let st := { st with fetchCalls := st.fetchCalls ++ [(.forecast5, c)] }
    match w.fetch .forecast5 c with
    | .netError => (.error .transportError, st)
    | .resp status text body =>
      if status ≠ 200 then (.ok ("Forecast API failed: " ++ text), st)
      else
        match body with
        | none => (.error .transportError, st)
        | some j => (format_forecast5_short w.time j slots, st)

/-- `get_air_pollution` from the source: the `forecast` flag picks the
endpoint and formatter; only the forecast path uses `limit`. -/
def get_air_pollution (w : World) (st : GwState) (city : String)
    (forecast : Bool) (limit : Int) : Except PyExc String × GwState :=
  match geocode_city w.geo st city with
  | (.exc e, st) => (.error e, st)
  | (.notFound, st) =>
    (.ok ("Could not resolve city " ++ squote ++ city ++ squote), st)
  | (.found c, st) =>
    let ep : Endpoint := if forecast then .airForecast else .airCurrent
    let st := { st with fetchCalls := st.fetchCalls ++ [(ep, c)] }
    match w.fetch ep c with
    | .netError => (.error .transportError, st)
    | .resp status text body =>
      if status ≠ 200 then (.ok ("Air Pollution API failed: " ++ text), st)
      else
        match body with
        | none => (.error .transportError, st)
        | some j =>
          if forecast then (format_air_pollution_forecast w.time j limit, st)
          else (.ok (format_air_pollution_current j), st)

/-! ## Helper lemmas and shared concrete fixtures -/

/-- A token is clean when it is non-empty and neither its first nor its last
character is one of the characters stripped by `.strip(", ")`. -/
def cleanTok (s : String) : Bool :=
  match s.data.head?, s.data.getLast? with
  | some a, some b => !sepChar a && !sepChar b
  | _, _ => false

theorem dropWhile_sep_of_head (l : List Char) (a : Char) (h1 : l.head? = some a)
    (h2 : sepChar a = false) : List.dropWhile sepChar l = l := by
  cases l with
  | nil => rfl
  | cons c cs =>
    simp only [List.head?_cons, Option.some.injEq] at h1
    subst h1
    simp [List.dropWhile_cons, h2]

/-- `.strip(", ")` removes exactly the trailing `", "` from a clean token. -/
theorem stripSep_append_sep (s : String) (h : cleanTok s = true) :
    stripSep (s ++ ", ") = s := by
  unfold cleanTok at h
  rcases h1 : s.data.head? with _ | a <;> rcases h2 : s.data.getLast? with _ | b <;>
    rw [h1, h2] at h <;> simp at h
  obtain ⟨ha, hb⟩ := h
  show String.mk _ = s
  have hdata : (s ++ ", ").toList = s.data ++ [',', ' '] := by
    show (s ++ ", ").data = _
    rw [String.data_append]
  rw [hdata]
  rw [dropWhile_sep_of_head (s.data ++ [',', ' ']) a (by rw [List.head?_append, h1]; rfl)
    (by simp [ha])]
  rw [List.reverse_append]
  show String.mk (List.dropWhile sepChar (' ' :: ',' :: s.data.reverse)).reverse = s
  rw [List.dropWhile_cons]
  norm_num [sepChar]
  rw [dropWhile_sep_of_head s.data.reverse b (by rw [List.head?_reverse, h2]) (by simp [hb])]
  rw [List.reverse_reverse]

/-- `.strip(", ")` removes exactly the leading `", "` before a clean token. -/
theorem stripSep_sep_append (s : String) (h : cleanTok s = true) :
    stripSep (", " ++ s) = s := by
  unfold cleanTok at h
  rcases h1 : s.data.head? with _ | a <;> rcases h2 : s.data.getLast? with _ | b <;>
    rw [h1, h2] at h <;> simp at h
  obtain ⟨ha, hb⟩ := h
  show String.mk _ = s
  have hdata : (", " ++ s).toList = ',' :: ' ' :: s.data := by
    show (", " ++ s).data = _
    rw [String.data_append]
    rfl
  rw [hdata]
  rw [List.dropWhile_cons]
  norm_num [sepChar]
  rw [dropWhile_sep_of_head s.data a h1 (by simp [ha])]
  rw [dropWhile_sep_of_head s.data.reverse b (by rw [List.head?_reverse, h2]) (by simp [hb])]
  rw [List.reverse_reverse]

theorem cacheLookup_append_self (city : String) (v : Json × Json)
    (l : List (String × (Json × Json))) (h : cacheLookup city l = none) :
    cacheLookup city (l ++ [(city, v)]) = some v := by
  induction l with
  | nil => simp [cacheLookup]
  | cons kv rest ih =>
    obtain ⟨k, w⟩ := kv
    by_cases hk : k = city
    · simp [cacheLookup, hk] at h
    · simp [cacheLookup, hk] at h ⊢
      exact ih h

theorem cacheLookup_append_other (city c₂ : String) (v : Json × Json)
    (l : List (String × (Json × Json))) (h : cacheLookup c₂ l = none)
    (hne : city ≠ c₂) : cacheLookup c₂ (l ++ [(city, v)]) = none := by
  induction l with
  | nil => simp [cacheLookup, hne]
  | cons kv rest ih =>
    obtain ⟨k, w⟩ := kv
    by_cases hk : k = c₂
    · simp [cacheLookup, hk] at h
    · simp [cacheLookup, hk] at h ⊢
      exact ih h

/-- A fixed concrete local-time renderer, standing in for one host timezone. -/
def tzUTC : TimeFn := fun m e => "t" ++ numStr m e

/-- A geocoding provider that finds no match for any city. -/
def geoZero : String → GeoOutcome := fun _ => GeoOutcome.ok []

/-- A geocoding provider whose every request fails at transport level. -/
def geoDown : String → GeoOutcome := fun _ => GeoOutcome.transportError

/-- One concrete geocoding match record. -/
def romeHit : Json := Json.obj [("lat", Json.num 419 1), ("lon", Json.num 125 1)]

/-- The coordinate pair extracted from `romeHit`. -/
def coordRome : Json × Json := (Json.num 419 1, Json.num 125 1)

/-- A geocoding provider that resolves every city to `romeHit`. -/
def geoRome : String → GeoOutcome := fun _ => GeoOutcome.ok [romeHit]

/-- A domain-data provider that always answers 500 with body text `boom`. -/
def fetch500 : Endpoint → Json × Json → WxOutcome :=
  fun _ _ => WxOutcome.resp 500 "boom" none

/-- World: geocoding finds nothing, domain data always 500. -/
def worldZero : World := ⟨geoZero, fetch500, tzUTC⟩

/-- World: geocoding is down, domain data always 500. -/
def worldDown : World := ⟨geoDown, fetch500, tzUTC⟩

/-- A state whose cache already resolves `Paris`. -/
def stParis : GwState := ⟨[("Paris", coordRome)], [], []⟩

/-! ## Claim C1 — geocode caching -/

/-- C1, counterexample: the claim says any two `geocode_city` calls with the
same exact string issue at most one provider geocoding call.  With a
provider that returns zero matches, nothing is cached, and two identical
calls issue two provider calls. -/
theorem C1_counterexample :
    ¬ ((geocode_city geoZero (geocode_city geoZero GwState.init "Rome").2
        "Rome").2.geoCalls.length ≤ 1) := by
  have h : (geocode_city geoZero (geocode_city geoZero GwState.init "Rome").2
      "Rome").2.geoCalls = ["Rome", "Rome"] := rfl
  simp [h]

/-- C1, amended: when the first resolution of an uncached city succeeds
(the provider returns at least one match carrying `lat` and `lon`), the
first call issues exactly one provider call and caches the coordinate, a
second identical call is answered from `_geocode_cache` with no provider
call and no state change, and a subsequent call for a different uncached
city issues a second provider call. -/
theorem C1_claim (g : String → GeoOutcome) (st : GwState)
    (city c₂ : String) (first : Json) (rest : List Json) (lat lon : Json)
    (hmiss : cacheLookup city st.cache = none)
    (hdata : g city = GeoOutcome.ok (first :: rest))
    (hlat : getItem first "lat" = Except.ok lat)
    (hlon : getItem first "lon" = Except.ok lon) :
    (geocode_city g st city).1 = GeoResult.found (lat, lon) ∧
    (geocode_city g st city).2.geoCalls = st.geoCalls ++ [city] ∧
    geocode_city g (geocode_city g st city).2 city
      = (GeoResult.found (lat, lon), (geocode_city g st city).2) ∧
    (c₂ ≠ city → cacheLookup c₂ st.cache = none →
      (geocode_city g (geocode_city g st city).2 c₂).2.geoCalls
        = st.geoCalls ++ [city, c₂]) := by
  have h1 : geocode_city g st city = (GeoResult.found (lat, lon),
      { st with cache := st.cache ++ [(city, (lat, lon))],
                geoCalls := st.geoCalls ++ [city] }) := by
    simp [geocode_city, hmiss, hdata, hlat, hlon]
  refine ⟨by rw [h1], by rw [h1], ?_, ?_⟩
  · rw [h1]
    have h2 := cacheLookup_append_self city (lat, lon) st.cache hmiss
    simp [geocode_city, h2]
  · intro hne hm2
    rw [h1]
    have h2 := cacheLookup_append_other city c₂ (lat, lon) st.cache hm2 (Ne.symm hne)
    cases hga : g c₂ with
    | transportError => simp [geocode_city, h2, hga]
    | ok data =>
      cases data with
      | nil => simp [geocode_city, h2, hga]
      | cons f r =>
        cases hl : getItem f "lat" with
        | error e => simp [geocode_city, h2, hga, hl]
        | ok la =>
          cases hlo : getItem f "lon" with
          | error e => simp [geocode_city, h2, hga, hl, hlo]
          | ok lo => simp [geocode_city, h2, hga, hl, hlo]

/-- C1, witness: with a provider that resolves every city to `romeHit`,
resolving `Rome` then `Paris` finds the coordinate and issues exactly the
two logged provider calls. -/
theorem C1_witness :
    (geocode_city geoRome GwState.init "Rome").1 = GeoResult.found coordRome ∧
    (geocode_city geoRome (geocode_city geoRome GwState.init "Rome").2 "Paris").2.geoCalls
      = ["Rome", "Paris"] :=
  ⟨(C1_claim geoRome GwState.init "Rome" "Paris" romeHit [] (Json.num 419 1)
      (Json.num 125 1) rfl rfl rfl rfl).1,
   (C1_claim geoRome GwState.init "Rome" "Paris" romeHit [] (Json.num 419 1)
      (Json.num 125 1) rfl rfl rfl rfl).2.2.2 (by decide) rfl⟩

/-! ## Claim C2 — cache non-poisoning -/

/-- C2: when `geocode_city` on an uncached city gets zero matches or a
transport-level failure, `_geocode_cache` is left unchanged, and a second
identical call issues a second provider call (the retry). -/
theorem C2_claim (g : String → GeoOutcome) (st : GwState) (city : String)
    (hmiss : cacheLookup city st.cache = none)
    (h : g city = GeoOutcome.ok [] ∨ g city = GeoOutcome.transportError) :
    (geocode_city g st city).2.cache = st.cache ∧
    (geocode_city g (geocode_city g st city).2 city).2.geoCalls
      = st.geoCalls ++ [city, city] := by
  rcases h with h | h <;> simp [geocode_city, hmiss, h]

/-- C2, witness: a zero-match provider leaves the empty cache empty and is
retried on the second identical call. -/
theorem C2_witness :
    (geocode_city geoZero GwState.init "Rome").2.cache = GwState.init.cache ∧
    (geocode_city geoZero (geocode_city geoZero GwState.init "Rome").2 "Rome").2.geoCalls
      = ["Rome", "Rome"] :=
  C2_claim geoZero GwState.init "Rome" rfl (Or.inl rfl)

/-! ## Claim C3 — formatter totality -/

/-- C3, counterexample: the claim says every formatter either returns a
formatted string or the fixed diagnostic string.  `format_forecast5_short`
has no try/except: on a payload whose first list entry lacks `dt` it
raises a `KeyError` past its boundary. -/
theorem C3_counterexample :
    format_forecast5_short tzUTC (Json.obj [("list", Json.arr [Json.obj []])]) 5
      = Except.error PyExc.keyError := rfl

/-- C3, amended: only `format_air_pollution_current` has the catch-all
boundary — any parsing failure inside its body yields exactly the fixed
diagnostic string, so it never raises; the current-weather, 5-day-forecast
and air-quality-forecast formatters have no such boundary and can raise. -/
theorem C3_claim (j : Json) (e : PyExc)
    (h : airPollutionCurrentBody j = Except.error e) :
    format_air_pollution_current j = "Unable to parse air pollution data" := by
  simp [format_air_pollution_current, h]

/-- C3, witness: an empty payload makes the air-pollution parsing body fail,
and the formatter returns the fixed diagnostic string. -/
theorem C3_witness :
    format_air_pollution_current (Json.obj []) = "Unable to parse air pollution data" :=
  C3_claim (Json.obj []) PyExc.indexError rfl

/-! ## Claim C4 — tool-surface error containment -/

/-- C4, counterexample: the claim says a transport-level failure on any
provider call — including the geocoding call inside `geocode_city` — is
converted to an error-message string.  `get_weather` does not catch the
exception raised by a geocoding transport failure, so it escapes to the
protocol layer. -/
theorem C4_counterexample :
    (get_weather worldDown GwState.init "London").1
      = Except.error PyExc.transportError := rfl

/-- C4, amended: a resolution failure and a non-200 response on the
domain-data call are contained as normal strings by all three tools, but a
transport-level failure during the geocoding call propagates out of the
tool as an exception. -/
theorem C4_claim (w : World) (st : GwState) (city : String)
    (slots limit : Int) (c : Json × Json) (status : Nat) (text : String)
    (body : Option Json) :
    (cacheLookup city st.cache = none → w.geo city = GeoOutcome.ok [] →
      (get_weather w st city).1
        = Except.ok ("Could not resolve city " ++ squote ++ city ++ squote) ∧
      (get_forecast_5d w st city slots).1
        = Except.ok ("Could not resolve city " ++ squote ++ city ++ squote) ∧
      (get_air_pollution w st city false limit).1
        = Except.ok ("Could not resolve city " ++ squote ++ city ++ squote) ∧
      (get_air_pollution w st city true limit).1
        = Except.ok ("Could not resolve city " ++ squote ++ city ++ squote)) ∧
    (cacheLookup city st.cache = some c → status ≠ 200 →
      (w.fetch Endpoint.weather c = WxOutcome.resp status text body →
        (get_weather w st city).1 = Except.ok ("Weather API failed: " ++ text)) ∧
      (w.fetch Endpoint.forecast5 c = WxOutcome.resp status text body →
        (get_forecast_5d w st city slots).1
          = Except.ok ("Forecast API failed: " ++ text)) ∧
      (w.fetch Endpoint.airCurrent c = WxOutcome.resp status text body →
        (get_air_pollution w st city false limit).1
          = Except.ok ("Air Pollution API failed: " ++ text)) ∧
      (w.fetch Endpoint.airForecast c = WxOutcome.resp status text body →
        (get_air_pollution w st city true limit).1
          = Except.ok ("Air Pollution API failed: " ++ text))) ∧
    (cacheLookup city st.cache = none → w.geo city = GeoOutcome.transportError →
      (get_weather w st city).1 = Except.error PyExc.transportError) := by
  refine ⟨?_, ?_, ?_⟩
  · intro hmiss hzero
    refine ⟨?_, ?_, ?_, ?_⟩ <;>
      simp [get_weather, get_forecast_5d, get_air_pollution, geocode_city, hmiss, hzero]
  · intro hhit hstat
    refine ⟨?_, ?_, ?_, ?_⟩ <;> intro hresp <;>
      simp [get_weather, get_forecast_5d, get_air_pollution, geocode_city, hhit, hresp, hstat]
  · intro hmiss hdown
    simp [get_weather, geocode_city, hmiss, hdown]

/-- C4, witness: a no-match provider yields the resolve-failure string, a
500 response on a cached city yields the API-failed string, and a downed
geocoding provider makes the exception escape `get_weather`. -/
theorem C4_witness :
    (get_weather worldZero GwState.init "Rome").1
      = Except.ok ("Could not resolve city " ++ squote ++ "Rome" ++ squote) ∧
    (get_weather worldZero stParis "Paris").1
      = Except.ok ("Weather API failed: " ++ "boom") ∧
    (get_weather worldDown GwState.init "Rome").1 = Except.error PyExc.transportError :=
  ⟨((C4_claim worldZero GwState.init "Rome" 5 5 coordRome 500 "boom" none).1
      rfl rfl).1,
   (((C4_claim worldZero stParis "Paris" 5 5 coordRome 500 "boom" none).2.1
      rfl (by decide)).1 rfl),
   ((C4_claim worldDown GwState.init "Rome" 5 5 coordRome 500 "boom" none).2.2
      rfl rfl)⟩

/-! ## Claim C5 — unresolved-city error shape -/

/-- C5: when the provider geocoding of an uncached city returns zero
matches, `get_weather` returns exactly the string
`Could not resolve city <squote><city><squote>` and issues no provider
weather request. -/
theorem C5_claim (w : World) (st : GwState) (city : String)
    (hmiss : cacheLookup city st.cache = none)
    (hzero : w.geo city = GeoOutcome.ok []) :
    (get_weather w st city).1
      = Except.ok ("Could not resolve city " ++ squote ++ city ++ squote) ∧
    (get_weather w st city).2.fetchCalls = st.fetchCalls := by
  simp [get_weather, geocode_city, hmiss, hzero]

/-- C5, witness: `London` against the zero-match world. -/
theorem C5_witness :
    (get_weather worldZero GwState.init "London").1
      = Except.ok ("Could not resolve city " ++ squote ++ "London" ++ squote) ∧
    (get_weather worldZero GwState.init "London").2.fetchCalls
      = GwState.init.fetchCalls :=
  C5_claim worldZero GwState.init "London" rfl rfl

/-! ## Claim C6 — weather-summary fixed point -/

/-- C6: on the London payload of the spec, `format_weather_short` returns
exactly `London, GB: 15.2°C, clear sky`. -/
theorem C6_claim :
    format_weather_short (Json.obj [("name", Json.str "London"),
      ("sys", Json.obj [("country", Json.str "GB")]),
      ("main", Json.obj [("temp", Json.num 152 1)]),
      ("weather", Json.arr [Json.obj [("description", Json.str "clear sky")]])])
    = Except.ok "London, GB: 15.2°C, clear sky" := rfl

/-! ## Claim C7 — no dangling separators -/

/-- C7, counterexample: the claim says that whenever name and/or country is
missing the output collapses to just the temperature/description clause
with no stray comma, space, or colon.  With both missing, the output keeps
a dangling leading colon-space before the clause. -/
theorem C7_counterexample :
    format_weather_short (Json.obj [("main", Json.obj [("temp", Json.num 152 1)]),
      ("weather", Json.arr [Json.obj [("description", Json.str "clear sky")]])])
      = Except.ok ": 15.2°C, clear sky"
    ∧ (": 15.2°C, clear sky" : String) ≠ "15.2°C, clear sky" := ⟨rfl, by decide⟩

/-- A current-weather payload with the given leading fields, a `main.temp`
of `t` and a single weather entry describing `d`. -/
def wxPayload (pre : List (String × Json)) (t d : Json) : Json :=
  Json.obj (pre ++ [("main", Json.obj [("temp", t)]),
    ("weather", Json.arr [Json.obj [("description", d)]])])

/-- C7, amended: when exactly one of name/country is present (a clean
non-empty token), `format_weather_short` collapses the place to that token
with no dangling comma or space; when both are missing, the output is the
temperature/description clause with a dangling leading colon-space. -/
theorem C7_claim (s : String) (t d : Json) (h : cleanTok s = true) :
    format_weather_short (wxPayload [("name", Json.str s)] t d)
      = Except.ok (s ++ ": " ++ pyStr t ++ "°C, " ++ pyStr d) ∧
    format_weather_short (wxPayload [("sys", Json.obj [("country", Json.str s)])] t d)
      = Except.ok (s ++ ": " ++ pyStr t ++ "°C, " ++ pyStr d) ∧
    format_weather_short (wxPayload [] t d)
      = Except.ok (": " ++ pyStr t ++ "°C, " ++ pyStr d) := by
  have hs : s ≠ "" := by
    intro he
    subst he
    simp [cleanTok] at h
  refine ⟨?_, ?_, ?_⟩
  · simp [format_weather_short, wxPayload, dictGet, jlookup, truthy, hs, pyStr,
      pyStrOpt, pyIndex0, bind, Except.bind, Functor.map, Except.map, Option.getD,
      String.append_empty, stripSep_append_sep s h]
    rfl
  · simp [format_weather_short, wxPayload, dictGet, jlookup, truthy, pyStr,
      pyStrOpt, pyIndex0, bind, Except.bind, Functor.map, Except.map, Option.getD,
      String.empty_append, stripSep_sep_append s h]
    rfl
  · simp [format_weather_short, wxPayload, dictGet, jlookup, truthy, pyStr,
      pyStrOpt, pyIndex0, bind, Except.bind, Functor.map, Except.map, Option.getD,
      String.empty_append]
    rfl

/-- C7, witness: a name-only payload and a country-only payload both
collapse cleanly around `GB`. -/
theorem C7_witness :
    format_weather_short (wxPayload [("name", Json.str "GB")]
        (Json.num 152 1) (Json.str "clear sky"))
      = Except.ok ("GB" ++ ": " ++ pyStr (Json.num 152 1) ++ "°C, "
          ++ pyStr (Json.str "clear sky")) ∧
    format_weather_short (wxPayload [("sys", Json.obj [("country", Json.str "GB")])]
        (Json.num 152 1) (Json.str "clear sky"))
      = Except.ok ("GB" ++ ": " ++ pyStr (Json.num 152 1) ++ "°C, "
          ++ pyStr (Json.str "clear sky")) :=
  ⟨(C7_claim "GB" (Json.num 152 1) (Json.str "clear sky") rfl).1,
   (C7_claim "GB" (Json.num 152 1) (Json.str "clear sky") rfl).2.1⟩

/-! ## Claim C8 — pollutant ordering and formatting -/

/-- C8: for every current-air-quality payload whose first entry has
components containing `pm2_5 = 1.234` and `co = 0.5` and none of the other
fixed pollutant keys, the components clause is exactly
`PM2_5=1.23, CO=0.50`, whatever the key order of the components dict. -/
theorem C8_claim (kvs : List (String × Json)) (aqi : Json) (rest : List Json)
    (h1 : jlookup "pm2_5" kvs = some (Json.num 1234 3))
    (h2 : jlookup "co" kvs = some (Json.num 5 1))
    (h3 : jlookup "pm10" kvs = none) (h4 : jlookup "no2" kvs = none)
    (h5 : jlookup "o3" kvs = none) (h6 : jlookup "so2" kvs = none)
    (h7 : jlookup "nh3" kvs = none) :
    format_air_pollution_current (Json.obj [("list", Json.arr
      (Json.obj [("main", Json.obj [("aqi", aqi)]),
                 ("components", Json.obj kvs)] :: rest))])
    = "AQI: " ++ pyStr aqi ++ ". Components: PM2_5=1.23, CO=0.50" := by
  simp [format_air_pollution_current, airPollutionCurrentBody, componentParts,
    pollutantOrder, dictGet, getItem, jlookup, pyIndex0, pyContains, fmt2fVal,
    bind, Except.bind, Functor.map, Except.map, Option.getD, List.foldlM,
    pure, Except.pure, h1, h2, h3, h4, h5, h6, h7]
  simp only [String.append_assoc]
  rfl

/-- C8, witness: a components dict listing `co` before `pm2_5` still
renders `PM2_5` first. -/
theorem C8_witness :
    format_air_pollution_current (Json.obj [("list", Json.arr
      [Json.obj [("main", Json.obj [("aqi", Json.num 2 0)]),
        ("components", Json.obj [("co", Json.num 5 1), ("pm2_5", Json.num 1234 3)])]])])
    = "AQI: " ++ pyStr (Json.num 2 0) ++ ". Components: PM2_5=1.23, CO=0.50" :=
  C8_claim [("co", Json.num 5 1), ("pm2_5", Json.num 1234 3)] (Json.num 2 0) []
    rfl rfl rfl rfl rfl rfl rfl

/-! ## Claim C9 — forecast slot limiting -/

/-- A well-formed 3-hour forecast entry with timestamp `dm / 10^de`,
temperature `t` and description `d`. -/
def mkFcEntry (dm : Int) (de : Nat) (t d : Json) : Json :=
  Json.obj [("dt", Json.num dm de), ("main", Json.obj [("temp", t)]),
    ("weather", Json.arr [Json.obj [("description", d)]])]

/-- C9: on a forecast payload whose list has 40 entries and `slots = 3`,
`format_forecast5_short` yields the header naming the city and slot count
followed by exactly the three lines formatted from the head of the list in
provider order. -/
theorem C9_claim (ft : TimeFn) (cityv : Json) (dm₁ dm₂ dm₃ : Int)
    (de₁ de₂ de₃ : Nat) (t₁ t₂ t₃ d₁ d₂ d₃ : Json) (rest : List Json)
    (hrest : rest.length = 37) :
    format_forecast5_short ft (Json.obj [("city", Json.obj [("name", cityv)]),
      ("list", Json.arr (mkFcEntry dm₁ de₁ t₁ d₁ :: mkFcEntry dm₂ de₂ t₂ d₂ ::
        mkFcEntry dm₃ de₃ t₃ d₃ :: rest))]) 3
      = Except.ok (String.intercalate "\n"
          ["5-day / 3-hour forecast for " ++ pyStr cityv ++ " (first 3 slots):",
           ft dm₁ de₁ ++ ": " ++ pyStr t₁ ++ "°C, " ++ pyStr d₁,
           ft dm₂ de₂ ++ ": " ++ pyStr t₂ ++ "°C, " ++ pyStr d₂,
           ft dm₃ de₃ ++ ": " ++ pyStr t₃ ++ "°C, " ++ pyStr d₃]) ∧
    (mkFcEntry dm₁ de₁ t₁ d₁ :: mkFcEntry dm₂ de₂ t₂ d₂ ::
        mkFcEntry dm₃ de₃ t₃ d₃ :: rest).length = 40 := by
  constructor
  · have hslice : pySliceTo (mkFcEntry dm₁ de₁ t₁ d₁ :: mkFcEntry dm₂ de₂ t₂ d₂ ::
        mkFcEntry dm₃ de₃ t₃ d₃ :: rest) 3
        = [mkFcEntry dm₁ de₁ t₁ d₁, mkFcEntry dm₂ de₂ t₂ d₂,
           mkFcEntry dm₃ de₃ t₃ d₃] := by
      simp [pySliceTo]
    simp [format_forecast5_short, listField, dictGet, jlookup, hslice, formatLines,
      forecastEntryLine, renderTime, getItem, pyIndex0, mkFcEntry, bind, Except.bind,
      Functor.map, Except.map, Option.getD, pure, Except.pure]
    simp only [String.append_assoc]
    rfl
  · simp [hrest]

/-- C9, witness: a 40-entry list (three explicit entries before 37 nulls)
with `slots = 3` produces the header plus exactly the first three lines. -/
theorem C9_witness :
    format_forecast5_short tzUTC (Json.obj [("city", Json.obj [("name", Json.str "Rome")]),
      ("list", Json.arr (mkFcEntry 100 0 (Json.num 21 0) (Json.str "sun") ::
        mkFcEntry 200 0 (Json.num 22 0) (Json.str "rain") ::
        mkFcEntry 300 0 (Json.num 23 0) (Json.str "fog") ::
        List.replicate 37 Json.null))]) 3
      = Except.ok (String.intercalate "\n"
          ["5-day / 3-hour forecast for " ++ pyStr (Json.str "Rome")
             ++ " (first 3 slots):",
           tzUTC 100 0 ++ ": " ++ pyStr (Json.num 21 0) ++ "°C, "
             ++ pyStr (Json.str "sun"),
           tzUTC 200 0 ++ ": " ++ pyStr (Json.num 22 0) ++ "°C, "
             ++ pyStr (Json.str "rain"),
           tzUTC 300 0 ++ ": " ++ pyStr (Json.num 23 0) ++ "°C, "
             ++ pyStr (Json.str "fog")]) :=
  (C9_claim tzUTC (Json.str "Rome") 100 200 300 0 0 0
    (Json.num 21 0) (Json.num 22 0) (Json.num 23 0)
    (Json.str "sun") (Json.str "rain") (Json.str "fog")
    (List.replicate 37 Json.null) (by simp)).1

/-! ## Claim C10 — implicit safety precondition of format_weather_short -/

/-- C10, counterexample: the claim says every dictionary whose `weather`
key, when present, maps to a non-empty list is safe.  A non-empty weather
list whose first element is not a dict still raises (`.get` on a number is
an `AttributeError`). -/
theorem C10_counterexample :
    format_weather_short (Json.obj [("weather", Json.arr [Json.num 5 0])])
      = Except.error PyExc.attributeError := rfl

/-- C10, amended: `format_weather_short` returns a string without raising
on every dictionary in which `sys` and `main`, when present, map to dicts,
and `weather`, when present, maps to a non-empty list whose first element
is a dict; absent `name`, `sys`, `main` keys and a missing temperature are
rendered with defaults rather than raising. -/
theorem C10_claim (kvs : List (String × Json))
    (hsys : ∀ v, jlookup "sys" kvs = some v → ∃ l, v = Json.obj l)
    (hmain : ∀ v, jlookup "main" kvs = some v → ∃ l, v = Json.obj l)
    (hw : ∀ v, jlookup "weather" kvs = some v →
      ∃ l rest, v = Json.arr (Json.obj l :: rest)) :
    ∃ s, format_weather_short (Json.obj kvs) = Except.ok s := by
  have hsys' : ∃ l2, (jlookup "sys" kvs).getD (Json.obj []) = Json.obj l2 := by
    rcases h2 : jlookup "sys" kvs with _ | v2
    · exact ⟨[], rfl⟩
    · obtain ⟨l, rfl⟩ := hsys v2 h2
      exact ⟨l, rfl⟩
  have hmain' : ∃ l3, (jlookup "main" kvs).getD (Json.obj []) = Json.obj l3 := by
    rcases h3 : jlookup "main" kvs with _ | v3
    · exact ⟨[], rfl⟩
    · obtain ⟨l, rfl⟩ := hmain v3 h3
      exact ⟨l, rfl⟩
  have hw' : ∃ l4 r4, (jlookup "weather" kvs).getD (Json.arr [Json.obj []])
      = Json.arr (Json.obj l4 :: r4) := by
    rcases h4 : jlookup "weather" kvs with _ | v4
    · exact ⟨[], [], rfl⟩
    · obtain ⟨l, r, rfl⟩ := hw v4 h4
      exact ⟨l, r, rfl⟩
  obtain ⟨l2, e2⟩ := hsys'
  obtain ⟨l3, e3⟩ := hmain'
  obtain ⟨l4, r4, e4⟩ := hw'
  simp only [format_weather_short, dictGet, e2, e3, e4, pyIndex0, bind, Except.bind,
    Functor.map, Except.map, pure, Except.pure]
  exact ⟨_, rfl⟩

/-- C10, witness: the empty dictionary satisfies the precondition and
formats without raising. -/
theorem C10_witness : ∃ s, format_weather_short (Json.obj []) = Except.ok s :=
  C10_claim [] (by simp [jlookup]) (by simp [jlookup]) (by simp [jlookup])
